import Mathlib

/-!
Verification of the forge-npm-pkg scaffolding tool.

This file shallowly embeds the configuration model, the package-name
validator, the package.json / README / CI-workflow generators and the
interactive configuration-resolution flow of the repository, and proves
(or refutes) the specification claims about them.

Conventions used throughout:
* TypeScript string unions become inductive types.
* Optional string metadata (`description?`, `author?`, ...) becomes
  `Option String`; the CLI stores `value || undefined`, so the empty
  string never reaches a generator and `none` models absence.
* Optional booleans (`setupCI?`, ...) become `Bool` (JS `undefined` is
  falsy everywhere they are read).
* Objects whose keys are inserted in program order become `List (String
  × String)` in the same order, looked up with `List.lookup`.
-/

set_option maxRecDepth 8000

namespace ForgeNpm

/-- Language choice, from `types.ts` (`'typescript' | 'javascript'`). -/
inductive Language where
  | typescript
  | javascript
deriving DecidableEq, Repr

/-- Module format, from `types.ts` (`'esm' | 'commonjs' | 'dual'`). -/
inductive ModuleType where
  | esm
  | commonjs
  | dual
deriving DecidableEq, Repr

/-- Test runner, from `types.ts` (`'vitest' | 'jest' | 'none'`). -/
inductive TestRunner where
  | vitest
  | jest
  | none
deriving DecidableEq, Repr

/-- Package manager, from `types.ts` (`'npm' | 'pnpm' | 'yarn' | 'bun'`). -/
inductive PackageManager where
  | npm
  | pnpm
  | yarn
  | bun
deriving DecidableEq, Repr

/-- The `ProjectConfig` interface from `types.ts` (current shape, with
`useCodecov` and `useDependabot`). -/
structure ProjectConfig where
  packageName : String
  language : Language
  moduleType : ModuleType
  testRunner : TestRunner
  useLinting : Bool
  initGit : Bool
  setupCI : Bool := false
  setupCD : Bool := false
  useCodecov : Bool := false
  useDependabot : Bool := false
  packageManager : Option PackageManager := Option.none
  description : Option String := Option.none
  author : Option String := Option.none
  authorEmail : Option String := Option.none
  githubUsername : Option String := Option.none
deriving DecidableEq, Repr

/-! ## Package-name validation (`validatePackageName` in the CLI entry file)

The validator checks, in order: non-emptiness, the 214-character ceiling,
the scoped-package regex
`^(@[a-z0-9-~][a-z0-9-._~]*\/)?[a-z0-9-~][a-z0-9-._~]*$`, and the two
reserved names.  The regex is embedded as an explicit matcher on the
character list: an optional `@scope/` prefix (the scope running up to the
first `/`) followed by a base name, both drawn from the regex's character
classes. -/

/-- Character class `[a-z0-9-~]` (the leading character of a name or scope). -/
def isBaseFirst (c : Char) : Bool :=
  (decide (('a' : Char) ≤ c ∧ c ≤ 'z')) || (decide (('0' : Char) ≤ c ∧ c ≤ '9')) ||
    c == '-' || c == '~'

/-- Character class `[a-z0-9-._~]` (the remaining characters of a name or scope). -/
def isBaseRest (c : Char) : Bool :=
  isBaseFirst c || c == '.' || c == '_'

/-- Matches `[a-z0-9-~][a-z0-9-._~]*`. -/
def matchBase (s : List Char) : Bool :=
  match s with
  | [] => false
  | c :: cs => isBaseFirst c && cs.all isBaseRest

/-- Splits a character list at its first `/`, returning the parts before
and after it (`none` when no `/` occurs). -/
def splitFirstSlash : List Char → Option (List Char × List Char)
  | [] => Option.none
  | c :: cs =>
    if c = '/' then Option.some ([], cs)
    else
      match splitFirstSlash cs with
      | Option.none => Option.none
      | Option.some (a, b) => Option.some (c :: a, b)

/-- The scoped-package regex as a decidable matcher.  A string starting
with `@` must have the shape `@scope/name` (the regex's optional group is
forced, because `@` is in no character class); otherwise the whole string
must match the base-name pattern. -/
def scopedPackagePattern (s : List Char) : Bool :=
  match s with
  | [] => false
  | c :: rest =>
    if c = '@' then
      match splitFirstSlash rest with
      | Option.some (scope, nm) => matchBase scope && matchBase nm
      | Option.none => false
    else matchBase (c :: rest)

/-- Function `validatePackageName` from the CLI entry file: returns an error
message, or `none` for a valid name. -/
def validatePackageName (name : String) : Option String :=
  if name = "" then Option.some "Package name is required"
  else if 214 < name.length then
    Option.some "Package name must be 214 characters or less"
  else if !scopedPackagePattern name.data then
    Option.some "Package name must be lowercase and can only contain letters, numbers, hyphens, underscores, and @/ for scoped packages"
  else if name = "node_modules" ∨ name = "favicon.ico" then
    Option.some ("\"" ++ name ++ "\" is a reserved package name")
  else Option.none

/-- Characters of a list matched by `matchBase` all lie in the class
`[a-z0-9-._~]`. -/
theorem matchBase_chars {s : List Char} (h : matchBase s = true) :
    ∀ c ∈ s, isBaseRest c = true := by
  intro c hc
  cases s with
  | nil => cases hc
  | cons d ds =>
    simp only [matchBase, Bool.and_eq_true] at h
    rcases List.mem_cons.mp hc with hc | hc
    · subst hc
      simp only [isBaseRest, h.1, Bool.true_or]
    · exact List.all_eq_true.mp h.2 c hc

/-- A successful `splitFirstSlash` really is a split at a slash. -/
theorem splitFirstSlash_eq :
    ∀ {s a b : List Char}, splitFirstSlash s = Option.some (a, b) →
      s = a ++ '/' :: b := by
  intro s
  induction s with
  | nil => intro a b h; cases h
  | cons d ds ih =>
    intro a b h
    by_cases hd : d = '/'
    · subst hd
      simp only [splitFirstSlash, if_true, eq_self_iff_true, Option.some.injEq,
        Prod.mk.injEq] at h
      rw [← h.1, ← h.2]; rfl
    · simp only [splitFirstSlash, if_neg hd] at h
      rcases hsp2 : splitFirstSlash ds with _ | ⟨p, q⟩
      · rw [hsp2] at h; cases h
      · rw [hsp2] at h
        simp only [Option.some.injEq, Prod.mk.injEq] at h
        rw [← h.1, ← h.2]
        simpa using congrArg (d :: ·) (ih hsp2)

/-- Every character of a string accepted by the pattern lies in the
regex's alphabet: the base classes together with `@` and `/`. -/
theorem scopedPackagePattern_chars {s : List Char} (h : scopedPackagePattern s = true) :
    ∀ c ∈ s, isBaseRest c = true ∨ c = '@' ∨ c = '/' := by
  cases s with
  | nil => intro c hc; cases hc
  | cons c0 rest =>
    by_cases h0 : c0 = '@'
    · subst h0
      simp only [scopedPackagePattern, if_true, eq_self_iff_true] at h
      rcases hsp : splitFirstSlash rest with _ | ⟨scope, nm⟩
      · rw [hsp] at h; cases h
      · rw [hsp] at h
        simp only [Bool.and_eq_true] at h
        have hrest : rest = scope ++ '/' :: nm := splitFirstSlash_eq hsp
        intro c hc
        rcases List.mem_cons.mp hc with hc | hc
        · right; left; exact hc
        · rw [hrest] at hc
          rcases List.mem_append.mp hc with hc | hc
          · exact Or.inl (matchBase_chars h.1 c hc)
          · rcases List.mem_cons.mp hc with hc | hc
            · right; right; exact hc
            · exact Or.inl (matchBase_chars h.2 c hc)
    · simp only [scopedPackagePattern, if_neg h0] at h
      intro c hc
      exact Or.inl (matchBase_chars h c hc)

/-- Characters matched by `matchBase` are never `/`. -/
theorem matchBase_no_slash {s : List Char} (h : matchBase s = true) :
    ∀ c ∈ s, c ≠ '/' := by
  intro c hc hslash
  have := matchBase_chars h c hc
  subst hslash
  simp [isBaseRest, isBaseFirst, Char.le_def] at this

/-- Lemma: `splitFirstSlash` recovers the split of `a ++ '/' :: b` when `a`
contains no slash. -/
theorem splitFirstSlash_append {a : List Char} (b : List Char)
    (ha : ∀ c ∈ a, c ≠ '/') :
    splitFirstSlash (a ++ '/' :: b) = Option.some (a, b) := by
  induction a with
  | nil => simp [splitFirstSlash]
  | cons d ds ih =>
    have hd : d ≠ '/' := ha d (List.mem_cons_self d ds)
    have hih := ih (fun c hc => ha c (List.mem_cons_of_mem d hc))
    simp only [List.cons_append, splitFirstSlash, if_neg hd, List.append_eq]
    rw [hih]

/-- Characters accepted by the pattern classes are never uppercase ASCII
letters. -/
theorem upper_not_allowed {c : Char} (hu : c.isUpper = true)
    (h : isBaseRest c = true ∨ c = '@' ∨ c = '/') : False := by
  simp only [Char.isUpper, Bool.and_eq_true, decide_eq_true_eq] at hu
  have hA : ('A' : Char) ≤ c := hu.1
  have hZ : c ≤ ('Z' : Char) := hu.2
  rcases h with hb | rfl | rfl
  · simp only [isBaseRest, isBaseFirst, Bool.or_eq_true, beq_iff_eq,
      decide_eq_true_eq] at hb
    rcases hb with ((((⟨ha1, ha2⟩ | ⟨hd1, hd2⟩) | rfl) | rfl) | rfl) | rfl
    · exact absurd (le_trans ha1 hZ) (by decide)
    · exact absurd (le_trans hA hd2) (by decide)
    · exact absurd hA (by decide)
    · exact absurd hZ (by decide)
    · exact absurd hA (by decide)
    · exact absurd hZ (by decide)
  · exact absurd hA (by decide)
  · exact absurd hA (by decide)

/-- When some character of the name lies outside the regex's alphabet,
validation rejects. -/
theorem validate_some_of_bad_char {s : String} {c : Char} (hc : c ∈ s.data)
    (hbad : ¬(isBaseRest c = true ∨ c = '@' ∨ c = '/')) :
    validatePackageName s ≠ Option.none := by
  unfold validatePackageName
  split_ifs with h1 h2 h3 h4
  · simp
  · simp
  · simp
  · simp
  · exfalso
    simp only [Bool.not_eq_true'] at h3
    rw [Bool.not_eq_false] at h3
    exact hbad (scopedPackagePattern_chars h3 c hc)

/-- C7 (amended).  The package-name validator rejects the empty string,
any string over 214 characters, any string containing an uppercase
letter, any string containing a character outside the allowed alphabet,
and the two reserved names; it accepts any unscoped name drawn from the
regex's classes whose first character is in `[a-z0-9-~]`, any scoped name
`@scope/name` whose two segments match likewise, and a 214-character
name. -/
theorem validatePackageName_correct :
    (validatePackageName "" ≠ Option.none)
  ∧ (∀ s : String, 214 < s.length → validatePackageName s ≠ Option.none)
  ∧ (∀ (s : String), ∀ c ∈ s.data, c.isUpper = true →
      validatePackageName s ≠ Option.none)
  ∧ (∀ (s : String), ∀ c ∈ s.data, ¬(isBaseRest c = true ∨ c = '@' ∨ c = '/') →
      validatePackageName s ≠ Option.none)
  ∧ (validatePackageName "node_modules" ≠ Option.none)
  ∧ (validatePackageName "favicon.ico" ≠ Option.none)
  ∧ (∀ (c : Char) (cs : List Char), isBaseFirst c = true → cs.all isBaseRest = true →
      (c :: cs).length ≤ 214 →
      String.mk (c :: cs) ≠ "node_modules" → String.mk (c :: cs) ≠ "favicon.ico" →
      validatePackageName (String.mk (c :: cs)) = Option.none)
  ∧ (∀ (sc nm : List Char), matchBase sc = true → matchBase nm = true →
      sc.length + nm.length + 2 ≤ 214 →
      validatePackageName (String.mk ('@' :: (sc ++ '/' :: nm))) = Option.none)
  ∧ (validatePackageName (String.mk (List.replicate 214 'a')) = Option.none) := by
  refine ⟨by decide, ?_, ?_, ?_, by decide, by decide, ?_, ?_, by decide⟩
  · intro s hlen
    unfold validatePackageName
    split_ifs <;> simp_all
  · intro s c hc hup
    exact validate_some_of_bad_char hc (fun h => upper_not_allowed hup h)
  · intro s c hc hbad
    exact validate_some_of_bad_char hc hbad
  · intro c cs h1 h2 hlen hnm hfi
    have hpat : scopedPackagePattern (c :: cs) = true := by
      have hcne : c ≠ '@' := by
        intro h; rw [h] at h1; exact absurd h1 (by decide)
      simp only [scopedPackagePattern, if_neg hcne, matchBase, h1, h2,
        Bool.and_self]
    have hne : String.mk (c :: cs) ≠ "" := by
      intro h
      have := congrArg String.data h
      simp at this
    unfold validatePackageName
    split_ifs with g1 g2 g3 g4
    · exact absurd g1 hne
    · exfalso
      rw [show (String.mk (c :: cs)).length = (c :: cs).length from rfl] at g2
      omega
    · exfalso
      rw [show (String.mk (c :: cs)).data = c :: cs from rfl] at g3
      rw [hpat] at g3
      simp at g3
    · exact absurd g4 (by
        rintro (h | h)
        · exact hnm h
        · exact hfi h)
    · rfl
  · intro sc nm hsc hnm hlen
    have hpat : scopedPackagePattern ('@' :: (sc ++ '/' :: nm)) = true := by
      simp only [scopedPackagePattern, if_pos rfl, if_true, eq_self_iff_true,
        splitFirstSlash_append nm (matchBase_no_slash hsc), hsc, hnm, Bool.and_self]
    have hne : String.mk ('@' :: (sc ++ '/' :: nm)) ≠ "" := by
      intro h
      have := congrArg String.data h
      simp at this
    have hdn : ("node_modules" : String).data =
        ['n', 'o', 'd', 'e', '_', 'm', 'o', 'd', 'u', 'l', 'e', 's'] := rfl
    have hdf : ("favicon.ico" : String).data =
        ['f', 'a', 'v', 'i', 'c', 'o', 'n', '.', 'i', 'c', 'o'] := rfl
    unfold validatePackageName
    split_ifs with g1 g2 g3 g4
    · exact absurd g1 hne
    · exfalso
      rw [show (String.mk ('@' :: (sc ++ '/' :: nm))).length =
        ('@' :: (sc ++ '/' :: nm)).length from rfl] at g2
      simp only [List.length_cons, List.length_append] at g2
      omega
    · exfalso
      rw [show (String.mk ('@' :: (sc ++ '/' :: nm))).data =
        '@' :: (sc ++ '/' :: nm) from rfl] at g3
      rw [hpat] at g3
      simp at g3
    · exfalso
      rcases g4 with h | h
      · have := congrArg String.data h
        rw [show (String.mk ('@' :: (sc ++ '/' :: nm))).data =
          '@' :: (sc ++ '/' :: nm) from rfl, hdn] at this
        simp at this
      · have := congrArg String.data h
        rw [show (String.mk ('@' :: (sc ++ '/' :: nm))).data =
          '@' :: (sc ++ '/' :: nm) from rfl, hdf] at this
        simp at this
    · rfl

/-- Witness for C7: the theorem applied at concrete inputs — a 215-`a`
name is rejected, `"My"` is rejected for its uppercase letter, `"my pkg"`
for its space, `"my-package"` and `"@scope/pkg.js"` are accepted. -/
theorem validatePackageName_correct_witness :
    validatePackageName (String.mk (List.replicate 215 'a')) ≠ Option.none
  ∧ validatePackageName "My" ≠ Option.none
  ∧ validatePackageName "my pkg" ≠ Option.none
  ∧ validatePackageName (String.mk ['m', 'y', '-', 'p', 'a', 'c', 'k', 'a', 'g', 'e'])
      = Option.none
  ∧ validatePackageName
      (String.mk ('@' :: (['s', 'c', 'o', 'p', 'e'] ++ '/' :: ['p', 'k', 'g', '.', 'j', 's'])))
      = Option.none := by
  refine ⟨?_, ?_, ?_, ?_, ?_⟩
  · exact validatePackageName_correct.2.1 _ (by decide)
  · exact validatePackageName_correct.2.2.1 "My" 'M' (by decide) (by decide)
  · exact validatePackageName_correct.2.2.2.1 "my pkg" ' ' (by decide) (by decide)
  · exact validatePackageName_correct.2.2.2.2.2.2.1 'm'
      ['y', '-', 'p', 'a', 'c', 'k', 'a', 'g', 'e']
      (by decide) (by decide) (by decide) (by decide) (by decide)
  · exact validatePackageName_correct.2.2.2.2.2.2.2.1
      ['s', 'c', 'o', 'p', 'e'] ['p', 'k', 'g', '.', 'j', 's']
      (by decide) (by decide) (by decide)

/-- Counterexample for C7 as stated: `".mypackage"` consists solely of
lowercase letters and a dot, yet the validator rejects it (the regex
requires the first character to be in `[a-z0-9-~]`, so leading dots and
underscores are refused — the repository's own tests expect this). -/
theorem validatePackageName_counterexample :
    (".mypackage".data.all
      (fun c => c.isLower || c.isDigit || c == '-' || c == '_' || c == '.')) = true
  ∧ validatePackageName ".mypackage" ≠ Option.none := by
  constructor
  · decide
  · decide

/-! ## The package.json generator (`src/utils/generators/packageJson.ts`)

The `exports` value of the manifest is either a bare path string (the
JavaScript case) or an object of resolution conditions for the root
subpath `"."`; condition keys are kept in the insertion order of the
source's object literals. -/

/-- Value of the manifest's `exports["."]` entry. -/
inductive ExportTarget where
  | bare (path : String)
  | conds (entries : List (String × String))
deriving DecidableEq, Repr

/-- The entry-point fields assembled by `generateEntryPoints`. -/
structure EntryPoints where
  main : Option String := Option.none
  module : Option String := Option.none
  types : Option String := Option.none
  exports : Option ExportTarget := Option.none
deriving DecidableEq, Repr

/-- The manifest record assembled by `generatePackageJson`. -/
structure Pkg where
  name : String
  version : String
  description : String
  type : String
  main : Option String
  module : Option String
  types : Option String
  exports : Option ExportTarget
  files : List String
  scripts : List (String × String)
  keywords : List String
  author : String
  license : String
  devDependencies : List (String × String)
  repository : Option (String × String)
  bugs : Option String
  homepage : Option String
deriving DecidableEq, Repr

namespace PackageJsonV1

/-- Function `generateEntryPoints`: entry points for the six language × module-type
combinations. -/
def generateEntryPoints (config : ProjectConfig) : EntryPoints :=
  if config.language ≠ Language.typescript then
    { main := Option.some "./src/index.js"
      module :=
        if config.moduleType = ModuleType.esm ∨ config.moduleType = ModuleType.dual then
          Option.some "./src/index.js"
        else Option.none
      exports := Option.some (ExportTarget.bare "./src/index.js") }
  else
    match config.moduleType with
    | ModuleType.esm =>
      { main := Option.some "./index.js"
        types := Option.some "./index.d.ts"
        exports := Option.some (ExportTarget.conds
          [("types", "./index.d.ts"), ("import", "./index.js")]) }
    | ModuleType.commonjs =>
      { main := Option.some "./index.js"
        types := Option.some "./index.d.ts"
        exports := Option.some (ExportTarget.conds
          [("types", "./index.d.ts"), ("require", "./index.js")]) }
    | ModuleType.dual =>
      { main := Option.some "./index.js"
        module := Option.some "./index.mjs"
        types := Option.some "./index.d.ts"
        exports := Option.some (ExportTarget.conds
          [("types", "./index.d.ts"), ("import", "./index.mjs"),
           ("require", "./index.js")]) }

/-- Function `generateFilesList`: the `files` allow-list of the manifest. -/
def generateFilesList (config : ProjectConfig) : List String :=
  if config.language = Language.javascript then ["src"]
  else
    ["dist", "index.js", "index.d.ts"] ++
      (if config.moduleType = ModuleType.dual then ["index.mjs"] else [])

/-- Function `generateScripts` (the `src/` snapshot, without the coverage script). -/
def generateScripts (config : ProjectConfig) : List (String × String) :=
  (if config.language = Language.typescript then
    [("build", "tsup"), ("typecheck", "tsc --noEmit")]
   else []) ++
  (match config.testRunner with
   | TestRunner.vitest => [("test", "vitest run"), ("test:watch", "vitest")]
   | TestRunner.jest => [("test", "jest"), ("test:watch", "jest --watch")]
   | TestRunner.none => []) ++
  (if config.useLinting then
    (let ext := if config.language = Language.typescript then "ts" else "js"
     [("lint", "eslint . --ext ." ++ ext),
      ("lint:fix", "eslint . --ext ." ++ ext ++ " --fix"),
      ("format", "prettier --write \"src/**/*.\x7bts,js,json,md\x7d\""),
      ("format:check", "prettier --check \"src/**/*.\x7bts,js,json,md\x7d\"")])
   else []) ++
  (if config.language = Language.typescript then [("check:exports", "attw --pack")]
   else []) ++
  (if config.language = Language.typescript then [("prepublishOnly", "npm run build")]
   else [])

/-- Function `generateDevDependencies` (the `src/` snapshot, with pinned versions). -/
def generateDevDependencies (config : ProjectConfig) : List (String × String) :=
  (if config.language = Language.typescript then
    [("typescript", "^5.3.3"), ("tsup", "^8.0.1"), ("@types/node", "^20.11.0"),
     ("@arethetypeswrong/cli", "^0.15.0")]
   else []) ++
  (match config.testRunner with
   | TestRunner.vitest => [("vitest", "^1.2.0")]
   | TestRunner.jest =>
     [("jest", "^29.7.0")] ++
       (if config.language = Language.typescript then
         [("ts-jest", "^29.1.1"), ("@types/jest", "^29.5.11")]
        else [])
   | TestRunner.none => []) ++
  (if config.useLinting then
    (if config.language = Language.typescript then
      [("@typescript-eslint/eslint-plugin", "^6.19.0"),
       ("@typescript-eslint/parser", "^6.19.0")]
     else []) ++
      [("eslint", "^8.56.0"), ("prettier", "^3.2.4"),
       ("eslint-config-prettier", "^9.1.0")]
   else [])

/-- Function `generatePackageJson`: the full manifest.  `config.description ||
'A new npm package'` becomes a fallback on `none` (the CLI never stores
the empty string), and the author field is built exactly as in the
source: name, then ` <email>`, then ` (https://github.com/handle)`. -/
def generatePackageJson (config : ProjectConfig) : Pkg :=
  let authorField : String :=
    match config.author with
    | Option.none => ""
    | Option.some a =>
      a ++
        (match config.authorEmail with
         | Option.some e => " <" ++ e ++ ">"
         | Option.none => "") ++
        (match config.githubUsername with
         | Option.some g => " (https://github.com/" ++ g ++ ")"
         | Option.none => "")
  let ep := generateEntryPoints config
  { name := config.packageName
    version := "0.1.0"
    description :=
      match config.description with
      | Option.some d => d
      | Option.none => "A new npm package"
    type := if config.moduleType = ModuleType.commonjs then "commonjs" else "module"
    main := ep.main
    module := ep.module
    types := ep.types
    exports := ep.exports
    files := generateFilesList config
    scripts := generateScripts config
    keywords := []
    author := authorField
    license := "MIT"
    devDependencies := generateDevDependencies config
    repository :=
      match config.githubUsername with
      | Option.some g =>
        Option.some ("git",
          "https://github.com/" ++ g ++ "/" ++ config.packageName ++ ".git")
      | Option.none => Option.none
    bugs :=
      match config.githubUsername with
      | Option.some g =>
        Option.some ("https://github.com/" ++ g ++ "/" ++ config.packageName ++ "/issues")
      | Option.none => Option.none
    homepage :=
      match config.githubUsername with
      | Option.some g =>
        Option.some ("https://github.com/" ++ g ++ "/" ++ config.packageName ++ "#readme")
      | Option.none => Option.none }

end PackageJsonV1

/-- C1.  The manifest's `type` field is `"commonjs"` exactly for the
commonjs module format and `"module"` otherwise, and the entry-point
fields and export-map condition sets match the six-way table: JavaScript
gets a bare-string export map, `main` (and, for esm/dual, `module`)
pointing at the source entry and no `types`; TypeScript esm/commonjs get
root re-exports with condition sets \x7btypes, import\x7d /
\x7btypes, require\x7d; TypeScript dual gets `main` on the CommonJS root
re-export, `module` on the `.mjs` ESM re-export, and condition set
\x7btypes, import, require\x7d with `import` on `.mjs` and `require` on
`.js`. -/
theorem generatePackageJson_entryPoints (c : ProjectConfig) :
    ((PackageJsonV1.generatePackageJson c).type = "commonjs" ↔
      c.moduleType = ModuleType.commonjs)
  ∧ (c.moduleType ≠ ModuleType.commonjs →
      (PackageJsonV1.generatePackageJson c).type = "module")
  ∧ (c.language = Language.javascript →
      (PackageJsonV1.generatePackageJson c).main = Option.some "./src/index.js"
    ∧ (PackageJsonV1.generatePackageJson c).types = Option.none
    ∧ (PackageJsonV1.generatePackageJson c).exports =
        Option.some (ExportTarget.bare "./src/index.js")
    ∧ ((PackageJsonV1.generatePackageJson c).module = Option.some "./src/index.js" ↔
        c.moduleType ≠ ModuleType.commonjs))
  ∧ (c.language = Language.typescript → c.moduleType = ModuleType.esm →
      (PackageJsonV1.generatePackageJson c).main = Option.some "./index.js"
    ∧ (PackageJsonV1.generatePackageJson c).module = Option.none
    ∧ (PackageJsonV1.generatePackageJson c).types = Option.some "./index.d.ts"
    ∧ (PackageJsonV1.generatePackageJson c).exports =
        Option.some (ExportTarget.conds
          [("types", "./index.d.ts"), ("import", "./index.js")]))
  ∧ (c.language = Language.typescript → c.moduleType = ModuleType.commonjs →
      (PackageJsonV1.generatePackageJson c).main = Option.some "./index.js"
    ∧ (PackageJsonV1.generatePackageJson c).module = Option.none
    ∧ (PackageJsonV1.generatePackageJson c).types = Option.some "./index.d.ts"
    ∧ (PackageJsonV1.generatePackageJson c).exports =
        Option.some (ExportTarget.conds
          [("types", "./index.d.ts"), ("require", "./index.js")]))
  ∧ (c.language = Language.typescript → c.moduleType = ModuleType.dual →
      (PackageJsonV1.generatePackageJson c).main = Option.some "./index.js"
    ∧ (PackageJsonV1.generatePackageJson c).module = Option.some "./index.mjs"
    ∧ (PackageJsonV1.generatePackageJson c).types = Option.some "./index.d.ts"
    ∧ (PackageJsonV1.generatePackageJson c).exports =
        Option.some (ExportTarget.conds
          [("types", "./index.d.ts"), ("import", "./index.mjs"),
           ("require", "./index.js")])) := by
  obtain ⟨pn, lang, mt, tr, lint, git, ci, cd, cov, dep, pm, desc, auth, email, gh⟩ := c
  cases lang <;> cases mt <;>
    simp [PackageJsonV1.generatePackageJson, PackageJsonV1.generateEntryPoints]

/-- Witness for C1: the TypeScript + dual and JavaScript + commonjs rows
of the table, read off the theorem at concrete configurations. -/
theorem generatePackageJson_entryPoints_witness :
    (PackageJsonV1.generatePackageJson
      { packageName := "sample-lib", language := Language.typescript,
        moduleType := ModuleType.dual, testRunner := TestRunner.vitest,
        useLinting := true, initGit := false }).exports =
      Option.some (ExportTarget.conds
        [("types", "./index.d.ts"), ("import", "./index.mjs"),
         ("require", "./index.js")])
  ∧ (PackageJsonV1.generatePackageJson
      { packageName := "sample-lib", language := Language.javascript,
        moduleType := ModuleType.commonjs, testRunner := TestRunner.none,
        useLinting := false, initGit := false }).type = "commonjs" := by
  constructor
  · exact ((generatePackageJson_entryPoints
      { packageName := "sample-lib", language := Language.typescript,
        moduleType := ModuleType.dual, testRunner := TestRunner.vitest,
        useLinting := true, initGit := false }).2.2.2.2.2 rfl rfl).2.2.2
  · exact (generatePackageJson_entryPoints
      { packageName := "sample-lib", language := Language.javascript,
        moduleType := ModuleType.commonjs, testRunner := TestRunner.none,
        useLinting := false, initGit := false }).1.mpr rfl

/-- C5.  The `files` allow-list is exactly `["src"]` for JavaScript;
for TypeScript it is the build-output directory plus the two root
re-export files, with `index.mjs` appended exactly for the dual format. -/
theorem generateFilesList_correct (c : ProjectConfig) :
    (c.language = Language.javascript →
      PackageJsonV1.generateFilesList c = ["src"])
  ∧ (c.language = Language.typescript →
      (c.moduleType = ModuleType.dual →
        PackageJsonV1.generateFilesList c = ["dist", "index.js", "index.d.ts", "index.mjs"])
    ∧ (c.moduleType ≠ ModuleType.dual →
        PackageJsonV1.generateFilesList c = ["dist", "index.js", "index.d.ts"])) := by
  obtain ⟨pn, lang, mt, tr, lint, git, ci, cd, cov, dep, pm, desc, auth, email, gh⟩ := c
  cases lang <;> cases mt <;> simp [PackageJsonV1.generateFilesList]

/-- Witness for C5: the allow-list evaluated for TypeScript + dual and
for a JavaScript configuration. -/
theorem generateFilesList_correct_witness :
    PackageJsonV1.generateFilesList
      { packageName := "sample-lib", language := Language.typescript,
        moduleType := ModuleType.dual, testRunner := TestRunner.vitest,
        useLinting := true, initGit := false } =
      ["dist", "index.js", "index.d.ts", "index.mjs"]
  ∧ PackageJsonV1.generateFilesList
      { packageName := "sample-lib", language := Language.javascript,
        moduleType := ModuleType.esm, testRunner := TestRunner.none,
        useLinting := false, initGit := false } = ["src"] := by
  constructor
  · exact (generateFilesList_correct
      { packageName := "sample-lib", language := Language.typescript,
        moduleType := ModuleType.dual, testRunner := TestRunner.vitest,
        useLinting := true, initGit := false }).2 rfl |>.1 rfl
  · exact (generateFilesList_correct
      { packageName := "sample-lib", language := Language.javascript,
        moduleType := ModuleType.esm, testRunner := TestRunner.none,
        useLinting := false, initGit := false }).1 rfl

/-- C4 (amended).  The GitHub-derived fields (`repository`, `bugs`,
`homepage`) are emitted all-or-nothing, gated on the GitHub username, and
the author string's email / GitHub segments are appended independently —
but an absent description is replaced by the fallback text
`"A new npm package"` and an absent author yields an empty-string
`author` field rather than an omitted one. -/
theorem generatePackageJson_metadata (c : ProjectConfig) :
    (c.githubUsername = Option.none →
      (PackageJsonV1.generatePackageJson c).repository = Option.none
    ∧ (PackageJsonV1.generatePackageJson c).bugs = Option.none
    ∧ (PackageJsonV1.generatePackageJson c).homepage = Option.none)
  ∧ (∀ g, c.githubUsername = Option.some g →
      (PackageJsonV1.generatePackageJson c).repository =
        Option.some ("git", "https://github.com/" ++ g ++ "/" ++ c.packageName ++ ".git")
    ∧ (PackageJsonV1.generatePackageJson c).bugs =
        Option.some ("https://github.com/" ++ g ++ "/" ++ c.packageName ++ "/issues")
    ∧ (PackageJsonV1.generatePackageJson c).homepage =
        Option.some ("https://github.com/" ++ g ++ "/" ++ c.packageName ++ "#readme"))
  ∧ (c.description = Option.none →
      (PackageJsonV1.generatePackageJson c).description = "A new npm package")
  ∧ (∀ d, c.description = Option.some d →
      (PackageJsonV1.generatePackageJson c).description = d)
  ∧ (c.author = Option.none → (PackageJsonV1.generatePackageJson c).author = "")
  ∧ (∀ a, c.author = Option.some a →
      (PackageJsonV1.generatePackageJson c).author =
        a ++
          (match c.authorEmail with
           | Option.some e => " <" ++ e ++ ">"
           | Option.none => "") ++
          (match c.githubUsername with
           | Option.some g => " (https://github.com/" ++ g ++ ")"
           | Option.none => "")) := by
  obtain ⟨pn, lang, mt, tr, lint, git, ci, cd, cov, dep, pm, desc, auth, email, gh⟩ := c
  cases desc <;> cases auth <;> cases gh <;>
    simp [PackageJsonV1.generatePackageJson]

/-- Witness for C4 (amended): evaluated with and without metadata. -/
theorem generatePackageJson_metadata_witness :
    (PackageJsonV1.generatePackageJson
      { packageName := "sample-lib", language := Language.typescript,
        moduleType := ModuleType.dual, testRunner := TestRunner.vitest,
        useLinting := true, initGit := false }).repository = Option.none
  ∧ (PackageJsonV1.generatePackageJson
      { packageName := "sample-lib", language := Language.typescript,
        moduleType := ModuleType.dual, testRunner := TestRunner.vitest,
        useLinting := true, initGit := false,
        author := Option.some "Jane Doe",
        authorEmail := Option.some "jane@example.com",
        githubUsername := Option.some "janedoe" }).author =
      "Jane Doe <jane@example.com> (https://github.com/janedoe)" := by
  constructor
  · exact ((generatePackageJson_metadata
      { packageName := "sample-lib", language := Language.typescript,
        moduleType := ModuleType.dual, testRunner := TestRunner.vitest,
        useLinting := true, initGit := false }).1 rfl).1
  · exact (generatePackageJson_metadata
      { packageName := "sample-lib", language := Language.typescript,
        moduleType := ModuleType.dual, testRunner := TestRunner.vitest,
        useLinting := true, initGit := false,
        author := Option.some "Jane Doe",
        authorEmail := Option.some "jane@example.com",
        githubUsername := Option.some "janedoe" }).2.2.2.2.2 "Jane Doe" rfl

/-- Counterexample for C4 as stated: with no description and no author,
the generated manifest does not omit those outputs — it contains the
substitute description `"A new npm package"` and an empty-string author
field. -/
theorem generatePackageJson_metadata_counterexample :
    (PackageJsonV1.generatePackageJson
      { packageName := "sample-lib", language := Language.typescript,
        moduleType := ModuleType.dual, testRunner := TestRunner.vitest,
        useLinting := true, initGit := false }).description = "A new npm package"
  ∧ (PackageJsonV1.generatePackageJson
      { packageName := "sample-lib", language := Language.typescript,
        moduleType := ModuleType.dual, testRunner := TestRunner.vitest,
        useLinting := true, initGit := false }).author = "" := by
  exact ⟨rfl, rfl⟩

/-! ## The current package.json generator (the async variant with version
fetching).  Its `generateScripts` adds `test:coverage` (and Dependabot /
release-automation scripts); its `generateDevDependencies` builds the
list of packages whose latest versions are fetched from the registry —
the network lookup itself is external, the list construction is embedded
as `packagesToFetch`. -/

namespace PackageJsonV2

/-- Function `generateScripts` from the current generator: identical to the
`src/` snapshot plus the `test:coverage`, Dependabot-sync and release
scripts. -/
def generateScripts (config : ProjectConfig) : List (String × String) :=
  (if config.language = Language.typescript then
    [("build", "tsup"), ("typecheck", "tsc --noEmit")]
   else []) ++
  (match config.testRunner with
   | TestRunner.vitest =>
     [("test", "vitest run"), ("test:watch", "vitest"),
      ("test:coverage", "vitest run --coverage")]
   | TestRunner.jest =>
     [("test", "jest"), ("test:watch", "jest --watch"),
      ("test:coverage", "jest --coverage")]
   | TestRunner.none => []) ++
  (if config.useLinting then
    (let ext := if config.language = Language.typescript then "ts" else "js"
     [("lint", "eslint . --ext ." ++ ext),
      ("lint:fix", "eslint . --ext ." ++ ext ++ " --fix"),
      ("format", "prettier --write \"src/**/*.\x7bts,js,json,md\x7d\""),
      ("format:check", "prettier --check \"src/**/*.\x7bts,js,json,md\x7d\"")])
   else []) ++
  (if config.language = Language.typescript then [("check:exports", "attw --pack")]
   else []) ++
  (if config.language = Language.typescript then [("prepublishOnly", "npm run build")]
   else []) ++
  (if config.useDependabot then
    [("sync", "git pull --rebase && npm install && npm test"),
     ("sync:quick", "git pull --rebase && npm install")]
   else []) ++
  (if config.setupCD then
    [("preversion", "npm run build && npm test"),
     ("release", "node scripts/release.mjs")]
   else [])

/-- The `packagesToFetch` list assembled inside the current
`generateDevDependencies` (the registry lookup itself is an external
collaborator).  The Vitest coverage provider is pushed only when CI is
enabled. -/
def packagesToFetch (config : ProjectConfig) : List String :=
  (if config.language = Language.typescript then
    ["typescript", "tsup", "@types/node", "@arethetypeswrong/cli"]
   else []) ++
  (match config.testRunner with
   | TestRunner.vitest =>
     ["vitest"] ++ (if config.setupCI then ["@vitest/coverage-v8"] else [])
   | TestRunner.jest =>
     ["jest"] ++
       (if config.language = Language.typescript then ["ts-jest", "@types/jest"]
        else [])
   | TestRunner.none => []) ++
  (if config.useLinting then
    (if config.language = Language.typescript then
      ["@typescript-eslint/eslint-plugin", "@typescript-eslint/parser"]
     else []) ++
      ["eslint", "prettier", "eslint-config-prettier"]
   else []) ++
  (if config.setupCD then ["@clack/prompts"] else [])

end PackageJsonV2

/-- C2 (code bug, evaluated at the failing input).  With Vitest selected
but CI disabled, the generated scripts still contain `test:coverage`
(the changelog documents it as added only when CI is enabled), and the
`@vitest/coverage-v8` provider the script needs is *not* in the
dependency fetch list — so the emitted script cannot even run.  The
`src/` snapshot of the generator, by contrast, never emits a coverage
script, even with CI enabled. -/
theorem generateScripts_coverage_failing_input :
    (PackageJsonV2.generateScripts
      { packageName := "sample-lib", language := Language.typescript,
        moduleType := ModuleType.dual, testRunner := TestRunner.vitest,
        useLinting := true, initGit := false, setupCI := false }).lookup
      "test:coverage" = Option.some "vitest run --coverage"
  ∧ ¬ "@vitest/coverage-v8" ∈ PackageJsonV2.packagesToFetch
      { packageName := "sample-lib", language := Language.typescript,
        moduleType := ModuleType.dual, testRunner := TestRunner.vitest,
        useLinting := true, initGit := false, setupCI := false }
  ∧ (PackageJsonV1.generateScripts
      { packageName := "sample-lib", language := Language.typescript,
        moduleType := ModuleType.dual, testRunner := TestRunner.vitest,
        useLinting := true, initGit := false, setupCI := true }).lookup
      "test:coverage" = Option.none := by
  refine ⟨?_, ?_, ?_⟩ <;> decide

/-! ## The CI workflow generator (`src/utils/generators/workflows.ts`)

`generateCIWorkflow` assembles a list of YAML step strings and joins
them under a static header with a static node-version matrix.  The step
strings are reproduced verbatim (braces and quotes written with hex
escapes). -/

namespace Workflows

/-- The static matrix of runtime versions tested. -/
def nodeVersions : List String := ["18", "20", "22"]

/-- Conditionally assembled list of CI steps (the `steps` array of
`generateCIWorkflow`). -/
def ciSteps (config : ProjectConfig) : List String :=
  [ "      - name: Checkout code\n        uses: actions/checkout@v4",
    "      - name: Setup Node.js $\x7b\x7b matrix.node-version \x7d\x7d\n        uses: actions/setup-node@v4\n        with:\n          node-version: $\x7b\x7b matrix.node-version \x7d\x7d",
    "      - name: Install dependencies\n        run: npm install" ] ++
  (if config.language = Language.typescript then
    ["      - name: Type check\n        run: npm run typecheck"]
   else []) ++
  (if config.useLinting then
    ["      - name: Lint\n        run: npm run lint"]
   else []) ++
  (if config.testRunner ≠ TestRunner.none then
    ["      - name: Run tests\n        run: npm test"]
   else []) ++
  ["      - name: Build\n        run: npm run build"] ++
  (if config.testRunner ≠ TestRunner.none then
    ["      - name: Upload coverage to Codecov\n        if: matrix.node-version == \x2720\x27\n        uses: codecov/codecov-action@v4\n        with:\n          token: $\x7b\x7b secrets.CODECOV_TOKEN \x7d\x7d"]
   else [])

/-- Function `generateCIWorkflow`: the full workflow text. -/
def generateCIWorkflow (config : ProjectConfig) : String :=
  "name: CI\n\non:\n  push:\n    branches: [main]\n  pull_request:\n    branches: [main]\n\njobs:\n  test:\n    runs-on: ubuntu-latest\n    strategy:\n      matrix:\n        node-version: [" ++
    String.intercalate ", " nodeVersions ++
    "]\n    steps:\n" ++ String.intercalate "\n\n" (ciSteps config) ++ "\n"

end Workflows

/-- C3 (code bug, evaluated at the failing input).  With CI enabled, a
test runner selected but coverage upload declined (`useCodecov = false`),
the generated CI step list still contains the Codecov upload step — the
generator never consults `useCodecov`, although the repository's own
workflow tests and changelog require the step to be opt-in.  The Codecov
step is moreover the *last* step, i.e. it is placed after the build step.
The type-check, lint and test steps are gated as claimed at this input:
all three are present here and absent once their flags are turned off. -/
theorem generateCIWorkflow_codecov_failing_input :
    (ProjectConfig.useCodecov
      { packageName := "test-package", language := Language.typescript,
        moduleType := ModuleType.esm, testRunner := TestRunner.vitest,
        useLinting := true, initGit := false, setupCI := true,
        useCodecov := false } = false)
  ∧ "      - name: Upload coverage to Codecov\n        if: matrix.node-version == \x2720\x27\n        uses: codecov/codecov-action@v4\n        with:\n          token: $\x7b\x7b secrets.CODECOV_TOKEN \x7d\x7d"
      ∈ Workflows.ciSteps
      { packageName := "test-package", language := Language.typescript,
        moduleType := ModuleType.esm, testRunner := TestRunner.vitest,
        useLinting := true, initGit := false, setupCI := true,
        useCodecov := false }
  ∧ (Workflows.ciSteps
      { packageName := "test-package", language := Language.typescript,
        moduleType := ModuleType.esm, testRunner := TestRunner.vitest,
        useLinting := true, initGit := false, setupCI := true,
        useCodecov := false }).getLast? =
      Option.some "      - name: Upload coverage to Codecov\n        if: matrix.node-version == \x2720\x27\n        uses: codecov/codecov-action@v4\n        with:\n          token: $\x7b\x7b secrets.CODECOV_TOKEN \x7d\x7d" := by
  refine ⟨rfl, ?_, ?_⟩ <;> decide

/-! ## Root re-export file generators (the `files.ts` generators)

`generateRootIndexDts` computes a `typeReference` with a ternary whose
two branches are the identical path `./dist/index` (the in-code comment
claims the dual branch references `.mjs`, but the code does not). -/

/-- Function `generateRootIndexDts`: the root `index.d.ts` re-export. -/
def generateRootIndexDts (config : ProjectConfig) : String :=
  let typeReference :=
    if config.moduleType = ModuleType.dual then "./dist/index" else "./dist/index"
  "/**\n * " ++ config.packageName ++
    " - Type Definitions\n *\n * @license MIT\n */\n\nexport * from \x27" ++
    typeReference ++ "\x27;\nexport \x7b default \x7d from \x27" ++
    typeReference ++ "\x27;\n"

/-- C9.  `generateRootIndexDts` depends only on the package name: for any
two configurations sharing a `packageName` the output is byte-identical
(in particular dual = esm = commonjs), and the dual-format output
re-exports from `./dist/index` with no `.mjs` reference. -/
theorem generateRootIndexDts_independent :
    (∀ c₁ c₂ : ProjectConfig, c₁.packageName = c₂.packageName →
      generateRootIndexDts c₁ = generateRootIndexDts c₂)
  ∧ generateRootIndexDts
      { packageName := "sample-lib", language := Language.typescript,
        moduleType := ModuleType.dual, testRunner := TestRunner.vitest,
        useLinting := true, initGit := false } =
    "/**\n * sample-lib - Type Definitions\n *\n * @license MIT\n */\n\nexport * from \x27./dist/index\x27;\nexport \x7b default \x7d from \x27./dist/index\x27;\n" := by
  constructor
  · intro c₁ c₂ h
    simp [generateRootIndexDts, h]
  · rfl

/-- Witness for C9: the theorem applied to two configurations that agree
on the name but differ in module format (dual vs. esm) and metadata. -/
theorem generateRootIndexDts_independent_witness :
    generateRootIndexDts
      { packageName := "sample-lib", language := Language.typescript,
        moduleType := ModuleType.dual, testRunner := TestRunner.vitest,
        useLinting := true, initGit := false } =
    generateRootIndexDts
      { packageName := "sample-lib", language := Language.typescript,
        moduleType := ModuleType.esm, testRunner := TestRunner.none,
        useLinting := false, initGit := true,
        githubUsername := Option.some "janedoe" } :=
  generateRootIndexDts_independent.1 _ _ rfl

/-! ## The README generator (`readme.ts`) -/

/-- The language name as it appears in the TypeScript source strings. -/
def languageStr : Language → String
  | Language.typescript => "typescript"
  | Language.javascript => "javascript"

/-- The `const badges` template of `generateReadme`:
`config.packageName || "<package-name>"` and
`config.githubUsername || "<github-username>"` become fallbacks on the
empty name / absent username.  The `Last Commit` badge URL embeds the
hard-coded username `oharu121`. -/
def generateReadmeBadges (config : ProjectConfig) : String :=
  let packageName :=
    if config.packageName = "" then "<package-name>" else config.packageName
  let githubUsername :=
    match config.githubUsername with
    | Option.some g => g
    | Option.none => "<github-username>"
  "\n[![npm version](https://badge.fury.io/js/" ++ packageName ++
    ".svg)](https://badge.fury.io/js/" ++ packageName ++
    ")\n![License](https://img.shields.io/npm/l/" ++ packageName ++
    ")\n![Types](https://img.shields.io/npm/types/" ++ packageName ++
    ")\n\n![NPM Downloads](https://img.shields.io/npm/dw/" ++ packageName ++
    ")\n" ++
  ("![Last Commit](https://img.shields.io/github/last-commit/oharu121/" ++
    packageName ++ ")") ++ "\n" ++
  (if config.useCodecov = true ∧ config.testRunner ≠ TestRunner.none then
    "![Coverage](https://codecov.io/gh/" ++ githubUsername ++ "/" ++
      packageName ++ "/branch/main/graph/badge.svg)\n"
   else "") ++
  (if config.setupCI then
    "![CI Status](https://github.com/" ++ githubUsername ++ "/" ++
      packageName ++ "/actions/workflows/ci.yml/badge.svg)"
   else "") ++
  "\n" ++
  ("![GitHub Stars](https://img.shields.io/github/stars/" ++ githubUsername ++
    "/" ++ packageName ++ "?style=social)") ++ "\n"

/-- Function `generateReadme`: README text with dynamic badges and conditional
sections.  Backticks, braces and apostrophes in the body are written with
hex escapes; the body after the badge block is grouped in one
parenthesised append. -/
def generateReadme (config : ProjectConfig) : String :=
  let description :=
    match config.description with
    | Option.some d => d
    | Option.none => "A new npm package created with forge-npm-pkg."
  "# " ++ config.packageName ++ "\n\n" ++ generateReadmeBadges config ++
    (description ++
      "\n\n## Installation\n\n\x60\x60\x60bash\nnpm install " ++ config.packageName ++
      "\n\x60\x60\x60\n\n## Usage\n\n\x60\x60\x60" ++ languageStr config.language ++
      "\nimport \x7b greet \x7d from \x27" ++ config.packageName ++
      "\x27;\n\nconsole.log(greet(\x27World\x27)); // Hello, World!\n\x60\x60\x60\n\n## Development\n\n### Build\n\n\x60\x60\x60bash\nnpm run build\n\x60\x60\x60\n\n" ++
      (if config.testRunner ≠ TestRunner.none then
        "### Test\n\n\x60\x60\x60bash\nnpm test\n\x60\x60\x60\n"
       else "") ++ "\n" ++
      (if config.useLinting then
        "### Lint\n\n\x60\x60\x60bash\nnpm run lint\nnpm run format\n\x60\x60\x60\n"
       else "") ++ "\n" ++
      (if config.language = Language.typescript then
        "### Validate Package Exports\n\n\x60\x60\x60bash\nnpm run check:exports\n\x60\x60\x60\n"
       else "") ++ "\n" ++
      (if config.setupCD then
        "## Release Workflow\n\nThis package uses automated publishing via GitHub Actions.\n\n### Creating a Release\n\n1. **Make your changes** and commit them\n2. **Update the version:**\n   \x60\x60\x60bash\n   npm version patch  # for bug fixes\n   npm version minor  # for new features\n   npm version major  # for breaking changes\n   \x60\x60\x60\n3. **Push the changes and tags:**\n   \x60\x60\x60bash\n   git push && git push --tags\n   \x60\x60\x60\n4. **Package automatically publishes to npm** 🎉\n\nThe GitHub Actions workflow will automatically:\n- Run all tests\n- Build the package\n- Publish to npm when a git tag is pushed\n\n"
       else "") ++ "\n" ++
      (match config.githubUsername with
       | Option.some g =>
         "## Contributing\n\nContributions are welcome! Please feel free to submit a Pull Request.\n\n## Issues\n\nIf you encounter any issues, please report them [here](https://github.com/" ++
           g ++ "/" ++ config.packageName ++ "/issues).\n\n"
       | Option.none => "") ++
      "## License\n\nMIT" ++
      (match config.author with
       | Option.some a => " © " ++ a
       | Option.none => "") ++ "\n")

/-- Containment of one string in another, witnessed by a prefix and a
suffix. -/
def strContains (big small : String) : Prop :=
  ∃ p s, big = p ++ small ++ s

/-- Containment is preserved by appending on the right. -/
theorem strContains_left {big x : String} (b : String) (h : strContains big x) :
    strContains (big ++ b) x := by
  obtain ⟨p, s, h⟩ := h
  refine ⟨p, s ++ b, ?_⟩
  rw [h]
  apply String.ext
  simp [String.data_append, List.append_assoc]

/-- Containment is preserved by prepending on the left. -/
theorem strContains_right (a : String) {big x : String} (h : strContains big x) :
    strContains (a ++ big) x := by
  obtain ⟨p, s, h⟩ := h
  refine ⟨a ++ p, s, ?_⟩
  rw [h]
  apply String.ext
  simp [String.data_append, List.append_assoc]

/-- Every string contains itself. -/
theorem strContains_refl (x : String) : strContains x x := by
  refine ⟨"", "", ?_⟩
  apply String.ext
  simp [String.data_append]

/-- The badge block always carries the `Last Commit` badge with the
hard-coded `oharu121` username. -/
theorem badges_contain_lastCommit (c : ProjectConfig) :
    strContains (generateReadmeBadges c)
      ("![Last Commit](https://img.shields.io/github/last-commit/oharu121/" ++
        (if c.packageName = "" then "<package-name>" else c.packageName) ++ ")") := by
  simp only [generateReadmeBadges]
  apply strContains_left
  apply strContains_left
  apply strContains_left
  apply strContains_left
  apply strContains_left
  apply strContains_left
  apply strContains_right
  exact strContains_refl _

/-- With no GitHub username, the badge block still ends with the GitHub
Stars badge, its URL carrying the `<github-username>` placeholder. -/
theorem badges_placeholder_stars (c : ProjectConfig)
    (h : c.githubUsername = Option.none) :
    strContains (generateReadmeBadges c)
      ("![GitHub Stars](https://img.shields.io/github/stars/<github-username>/" ++
        (if c.packageName = "" then "<package-name>" else c.packageName) ++
        "?style=social)") := by
  rw [show ("![GitHub Stars](https://img.shields.io/github/stars/<github-username>/" : String) =
    "![GitHub Stars](https://img.shields.io/github/stars/" ++ "<github-username>" ++ "/"
    from rfl]
  simp only [generateReadmeBadges, h]
  apply strContains_left
  apply strContains_right
  exact strContains_refl _

/-- C10.  The README's badge block embeds the hard-coded GitHub username
`oharu121` in the `Last Commit` badge URL for *every* configuration
(independently of `githubUsername`), and when no GitHub username is
provided the badge block is still emitted, its username-dependent GitHub
Stars badge URL carrying the `<github-username>` placeholder. -/
theorem generateReadme_badges (c : ProjectConfig) :
    strContains (generateReadme c)
      ("![Last Commit](https://img.shields.io/github/last-commit/oharu121/" ++
        (if c.packageName = "" then "<package-name>" else c.packageName) ++ ")")
  ∧ (c.githubUsername = Option.none →
      strContains (generateReadme c)
        ("![GitHub Stars](https://img.shields.io/github/stars/<github-username>/" ++
          (if c.packageName = "" then "<package-name>" else c.packageName) ++
          "?style=social)")) := by
  constructor
  · simp only [generateReadme]
    apply strContains_left
    apply strContains_right
    exact badges_contain_lastCommit c
  · intro h
    simp only [generateReadme]
    apply strContains_left
    apply strContains_right
    exact badges_placeholder_stars c h

/-- Witness for C10: both containments evaluated at a configuration with
no GitHub username. -/
theorem generateReadme_badges_witness :
    strContains
      (generateReadme
        { packageName := "sample-lib", language := Language.typescript,
          moduleType := ModuleType.dual, testRunner := TestRunner.vitest,
          useLinting := true, initGit := false, setupCI := true })
      "![Last Commit](https://img.shields.io/github/last-commit/oharu121/sample-lib)"
  ∧ strContains
      (generateReadme
        { packageName := "sample-lib", language := Language.typescript,
          moduleType := ModuleType.dual, testRunner := TestRunner.vitest,
          useLinting := true, initGit := false, setupCI := true })
      "![GitHub Stars](https://img.shields.io/github/stars/<github-username>/sample-lib?style=social)" := by
  constructor
  · have h := (generateReadme_badges
      { packageName := "sample-lib", language := Language.typescript,
        moduleType := ModuleType.dual, testRunner := TestRunner.vitest,
        useLinting := true, initGit := false, setupCI := true }).1
    simpa using h
  · have h := (generateReadme_badges
      { packageName := "sample-lib", language := Language.typescript,
        moduleType := ModuleType.dual, testRunner := TestRunner.vitest,
        useLinting := true, initGit := false, setupCI := true }).2 rfl
    simpa using h

/-! ## The CLI flow (`program.action` in the entry file)

The interactive run is modelled as a function of an environment that
records the invocation flags, the externally observed facts (name
availability, target-directory existence, stored user profile, git
identity) and the user's answer to each prompt.  A prompt answer of
`none` models the user cancelling that prompt; `handleCancel` then
terminates the run with exit code 0, exactly as `clack.isCancel` +
`process.exit(0)` does.  `Except.error c` means the run terminated with
exit code `c` before the project tree was written; `Except.ok config`
means the flow reached `createProject` (after which files exist on
disk). -/

/-- The stored user profile (`userConfig.ts`). -/
structure StoredUser where
  author : Option String := Option.none
  email : Option String := Option.none
  github : Option String := Option.none
deriving DecidableEq, Repr

/-- The local git identity (`gitConfig.ts`). -/
structure GitIdent where
  name : Option String := Option.none
  email : Option String := Option.none
deriving DecidableEq, Repr

/-- JS `text || undefined`: an empty prompt answer is stored as absent. -/
def emptyToNone (s : String) : Option String :=
  if s = "" then Option.none else Option.some s

/-- Invocation flags, external facts and prompt answers for one run.
`none` in a prompt-answer field models cancelling that prompt. -/
structure Env where
  providedName : Option String := Option.none
  yes : Bool := false
  dryRun : Bool := false
  skipInstall : Bool := false
  noSave : Bool := false
  available : Bool := true
  dirExists : Bool := false
  storedConfig : Option StoredUser := Option.none
  gitConfig : Option GitIdent := Option.none
  detectedPM : PackageManager := PackageManager.npm
  nameAns : Option String := Option.none
  confirmCreate : Option Bool := Option.none
  continueAnyway : Option Bool := Option.none
  langAns : Option Language := Option.none
  testRunnerAns : Option TestRunner := Option.none
  useLintingAns : Option Bool := Option.none
  initGitAns : Option Bool := Option.none
  setupCIAns : Option Bool := Option.none
  setupCDAns : Option Bool := Option.none
  useCodecovAns : Option Bool := Option.none
  useDependabotAns : Option Bool := Option.none
  descriptionAns : Option String := Option.none
  useGitConfigAns : Option Bool := Option.none
  authorAns : Option String := Option.none
  emailAns : Option String := Option.none
  githubAns : Option String := Option.none
  saveAns : Option Bool := Option.none
  pmAns : Option PackageManager := Option.none
  proceedAns : Option Bool := Option.none
  installAns : Option Bool := Option.none
deriving DecidableEq, Repr

/-- Function `handleCancel`: a cancelled prompt (answer `none`) exits with code 0;
otherwise the flow continues with the answer. -/
def handleCancel {α β : Type} (ans : Option α) (k : α → Except Nat β) : Except Nat β :=
  match ans with
  | Option.none => Except.error 0
  | Option.some a => k a

/-- The boolean/enum part of the resolved configuration (step 2 of the
action). -/
structure Flags where
  language : Language
  moduleType : ModuleType
  testRunner : TestRunner
  useLinting : Bool
  initGit : Bool
  setupCI : Bool
  setupCD : Bool
  useCodecov : Bool
  useDependabot : Bool
deriving DecidableEq, Repr

/-- Step 2 of the action: the `--yes` default bundle, or the interactive
questions with their conditional skipping — the CD, Codecov and
Dependabot questions are asked only under CI, the Codecov question
additionally only when a test runner was chosen (`useCodecov = false`
without a prompt otherwise), and everything defaults to `false` when CI
is declined.  The module format is always `dual`. -/
def resolveFlags (env : Env) : Except Nat Flags :=
  if env.yes then
    Except.ok
      { language := Language.typescript, moduleType := ModuleType.dual,
        testRunner := TestRunner.vitest, useLinting := true, initGit := false,
        setupCI := true, setupCD := false, useCodecov := false,
        useDependabot := false }
  else
    handleCancel env.langAns fun language =>
    handleCancel env.testRunnerAns fun testRunner =>
    handleCancel env.useLintingAns fun useLinting =>
    handleCancel env.initGitAns fun initGit =>
    handleCancel env.setupCIAns fun setupCI =>
    if setupCI then
      handleCancel env.setupCDAns fun setupCD =>
      if testRunner ≠ TestRunner.none then
        handleCancel env.useCodecovAns fun useCodecov =>
        handleCancel env.useDependabotAns fun useDependabot =>
        Except.ok
          { language, moduleType := ModuleType.dual, testRunner, useLinting,
            initGit, setupCI := true, setupCD, useCodecov, useDependabot }
      else
        handleCancel env.useDependabotAns fun useDependabot =>
        Except.ok
          { language, moduleType := ModuleType.dual, testRunner, useLinting,
            initGit, setupCI := true, setupCD, useCodecov := false,
            useDependabot }
    else
      Except.ok
        { language, moduleType := ModuleType.dual, testRunner, useLinting,
          initGit, setupCI := false, setupCD := false, useCodecov := false,
          useDependabot := false }

/-- The metadata part of the resolved configuration plus the
save-profile decision (step 3 of the action). -/
structure MetaInfo where
  description : Option String
  author : Option String
  authorEmail : Option String
  githubUsername : Option String
  shouldSave : Bool
deriving DecidableEq, Repr

/-- The save-profile offer at the end of metadata collection: made only
when no profile existed, `--no-save` was not given, and something was
entered. -/
def metaFinish (env : Env) (description author authorEmail githubUsername : Option String) :
    Except Nat MetaInfo :=
  if ¬env.noSave ∧ (author.isSome ∨ authorEmail.isSome ∨ githubUsername.isSome) then
    handleCancel env.saveAns fun save =>
    Except.ok
      { description, author, authorEmail, githubUsername, shouldSave := save }
  else
    Except.ok
      { description, author, authorEmail, githubUsername, shouldSave := false }

/-- The free metadata prompts (author, email, GitHub handle), used when
no stored profile exists and the git identity is absent or declined. -/
def metaAskAll (env : Env) (description : Option String) : Except Nat MetaInfo :=
  handleCancel env.authorAns fun aText =>
  handleCancel env.emailAns fun eText =>
  handleCancel env.githubAns fun gText =>
  metaFinish env description (emptyToNone aText) (emptyToNone eText) (emptyToNone gText)

/-- Step 3 of the action: metadata resolution.  Skipped wholesale under
`--yes`; otherwise the description prompt, then the stored profile (used
verbatim), else the git identity (offered once; accepting pre-fills
name/email and asks only the GitHub handle), else free prompts. -/
def resolveMetadata (env : Env) : Except Nat MetaInfo :=
  if env.yes then
    Except.ok
      { description := Option.none, author := Option.none,
        authorEmail := Option.none, githubUsername := Option.none,
        shouldSave := false }
  else
    handleCancel env.descriptionAns fun descText =>
    let description := emptyToNone descText
    match env.storedConfig with
    | Option.some sc =>
      Except.ok
        { description, author := sc.author, authorEmail := sc.email,
          githubUsername := sc.github, shouldSave := false }
    | Option.none =>
      match env.gitConfig with
      | Option.some gc =>
        if gc.name.isSome ∨ gc.email.isSome then
          handleCancel env.useGitConfigAns fun useGit =>
          if useGit then
            handleCancel env.githubAns fun gText =>
            metaFinish env description gc.name gc.email (emptyToNone gText)
          else metaAskAll env description
        else metaAskAll env description
      | Option.none => metaAskAll env description

/-- Steps 1–5 of the action: everything that happens before
`createProject` writes the project tree.  `Except.error c` is a
termination with exit code `c` and nothing written (cancellations and
declines exit 0, the target-directory collision exits 1, and a dry run
returns normally, code 0, without writing). -/
def preCreate (env : Env) : Except Nat ProjectConfig :=
  (match env.providedName with
   | Option.none => handleCancel env.nameAns fun nm => Except.ok nm
   | Option.some nm =>
     if env.yes then Except.ok nm
     else
       handleCancel env.confirmCreate fun confirmed =>
         if confirmed then Except.ok nm else Except.error 0).bind fun finalPackageName =>
  (if ¬env.available ∧ ¬env.yes then
     handleCancel env.continueAnyway fun cont =>
       if cont then Except.ok () else Except.error 0
   else Except.ok ()).bind fun _ =>
  if env.dirExists then Except.error 1
  else
    (resolveFlags env).bind fun flags =>
    (resolveMetadata env).bind fun meta =>
    ((if env.yes then Except.ok env.detectedPM
      else handleCancel env.pmAns fun pm => Except.ok pm) :
        Except Nat PackageManager).bind fun packageManager =>
    (if ¬env.yes then
       handleCancel env.proceedAns fun proceed =>
         if proceed then Except.ok () else Except.error 0
     else Except.ok ()).bind fun _ =>
    if env.dryRun then Except.error 0
    else
      Except.ok
        { packageName := finalPackageName, language := flags.language,
          moduleType := flags.moduleType, testRunner := flags.testRunner,
          useLinting := flags.useLinting, initGit := flags.initGit,
          setupCI := flags.setupCI, setupCD := flags.setupCD,
          useCodecov := flags.useCodecov, useDependabot := flags.useDependabot,
          packageManager := Option.some packageManager,
          description := meta.description, author := meta.author,
          authorEmail := meta.authorEmail,
          githubUsername := meta.githubUsername }

/-- Final state of one run: the process exit code and whether project
files were written. -/
structure RunResult where
  exitCode : Nat
  wroteFiles : Bool
deriving DecidableEq, Repr

/-- The whole action: after `preCreate` succeeds, `createProject` writes
the tree; with neither `--skip-install` nor `--yes`, the
install-confirmation prompt follows — cancelling it exits 0 (files
already written); every other post-creation outcome (install failures,
post-install task failures, build-verification failures) is reported as
a warning and the run completes with code 0. -/
def runAction (env : Env) : RunResult :=
  match preCreate env with
  | Except.error c => { exitCode := c, wroteFiles := false }
  | Except.ok _ =>
    if ¬env.skipInstall ∧ ¬env.yes then
      match env.installAns with
      | Option.none => { exitCode := 0, wroteFiles := true }
      | Option.some _ => { exitCode := 0, wroteFiles := true }
    else { exitCode := 0, wroteFiles := true }

/-- A successful `handleCancel` means the prompt was answered and the
continuation succeeded on the answer. -/
theorem handleCancel_ok {α β : Type} {ans : Option α} {k : α → Except Nat β} {b : β}
    (h : handleCancel ans k = Except.ok b) :
    ∃ a, ans = Option.some a ∧ k a = Except.ok b := by
  cases ans with
  | none => cases h
  | some a => exact ⟨a, rfl, h⟩

/-- A failing `handleCancel` is either the cancellation exit (code 0) or
a failure of the continuation. -/
theorem handleCancel_error {α β : Type} {ans : Option α} {k : α → Except Nat β} {c : Nat}
    (h : handleCancel ans k = Except.error c) :
    c = 0 ∨ ∃ a, ans = Option.some a ∧ k a = Except.error c := by
  cases ans with
  | none =>
    left
    simp only [handleCancel] at h
    exact (Except.error.inj h).symm
  | some a => exact Or.inr ⟨a, rfl, h⟩

/-- Error analysis of `Except.bind`. -/
theorem bind_eq_error {α β : Type} {x : Except Nat α} {f : α → Except Nat β} {c : Nat}
    (h : x.bind f = Except.error c) :
    x = Except.error c ∨ ∃ a, x = Except.ok a ∧ f a = Except.error c := by
  cases x with
  | error e =>
    left
    simp only [Except.bind] at h
    rw [Except.error.inj h]
  | ok a =>
    right
    exact ⟨a, rfl, by simpa [Except.bind] using h⟩

/-- Success analysis of `Except.bind`. -/
theorem bind_eq_ok {α β : Type} {x : Except Nat α} {f : α → Except Nat β} {b : β}
    (h : x.bind f = Except.ok b) :
    ∃ a, x = Except.ok a ∧ f a = Except.ok b := by
  cases x with
  | error e => simp [Except.bind] at h
  | ok a => exact ⟨a, rfl, by simpa [Except.bind] using h⟩

/-- The save-offer step can only fail by cancellation (exit 0). -/
theorem metaFinish_error {env : Env} {d a e g : Option String} {c : Nat}
    (h : metaFinish env d a e g = Except.error c) : c = 0 := by
  unfold metaFinish at h
  by_cases hc : ¬env.noSave = true ∧
      (a.isSome = true ∨ e.isSome = true ∨ g.isSome = true)
  · rw [if_pos hc] at h
    rcases handleCancel_error h with rfl | ⟨s, _, hs⟩
    · rfl
    · exact Except.noConfusion hs
  · rw [if_neg hc] at h
    exact Except.noConfusion h

/-- The free metadata prompts can only fail by cancellation (exit 0). -/
theorem metaAskAll_error {env : Env} {d : Option String} {c : Nat}
    (h : metaAskAll env d = Except.error c) : c = 0 := by
  unfold metaAskAll at h
  rcases handleCancel_error h with rfl | ⟨a, _, h⟩
  · rfl
  rcases handleCancel_error h with rfl | ⟨e, _, h⟩
  · rfl
  rcases handleCancel_error h with rfl | ⟨g, _, h⟩
  · rfl
  exact metaFinish_error h

/-- Metadata resolution can only fail by cancellation (exit 0). -/
theorem resolveMetadata_error {env : Env} {c : Nat}
    (h : resolveMetadata env = Except.error c) : c = 0 := by
  unfold resolveMetadata at h
  by_cases hy : env.yes = true
  · rw [if_pos hy] at h
    exact Except.noConfusion h
  · rw [if_neg hy] at h
    rcases handleCancel_error h with rfl | ⟨d, _, h⟩
    · rfl
    rcases hst : env.storedConfig with _ | sc
    · rw [hst] at h
      simp only [] at h
      rcases hgc : env.gitConfig with _ | gc
      · rw [hgc] at h
        simp only [] at h
        exact metaAskAll_error h
      · rw [hgc] at h
        simp only [] at h
        by_cases h1 : gc.name.isSome = true ∨ gc.email.isSome = true
        · rw [if_pos h1] at h
          rcases handleCancel_error h with rfl | ⟨u, _, h⟩
          · rfl
          by_cases h2 : u = true
          · rw [if_pos h2] at h
            rcases handleCancel_error h with rfl | ⟨g, _, h⟩
            · rfl
            · exact metaFinish_error h
          · rw [if_neg h2] at h
            exact metaAskAll_error h
        · rw [if_neg h1] at h
          exact metaAskAll_error h
    · rw [hst] at h
      simp only [] at h
      exact Except.noConfusion h

/-- Flag resolution can only fail by cancellation (exit 0). -/
theorem resolveFlags_error {env : Env} {c : Nat}
    (h : resolveFlags env = Except.error c) : c = 0 := by
  unfold resolveFlags at h
  by_cases hy : env.yes = true
  · rw [if_pos hy] at h
    exact Except.noConfusion h
  · rw [if_neg hy] at h
    rcases handleCancel_error h with rfl | ⟨lang, _, h⟩
    · rfl
    rcases handleCancel_error h with rfl | ⟨tr, _, h⟩
    · rfl
    rcases handleCancel_error h with rfl | ⟨lint, _, h⟩
    · rfl
    rcases handleCancel_error h with rfl | ⟨git, _, h⟩
    · rfl
    rcases handleCancel_error h with rfl | ⟨ci, _, h⟩
    · rfl
    by_cases hci : ci = true
    · rw [if_pos hci] at h
      rcases handleCancel_error h with rfl | ⟨cd, _, h⟩
      · rfl
      by_cases htr : tr = TestRunner.none
      · rw [if_neg (not_not_intro htr)] at h
        rcases handleCancel_error h with rfl | ⟨dep, _, h⟩
        · rfl
        · exact Except.noConfusion h
      · rw [if_pos htr] at h
        rcases handleCancel_error h with rfl | ⟨cov, _, h⟩
        · rfl
        rcases handleCancel_error h with rfl | ⟨dep, _, h⟩
        · rfl
        · exact Except.noConfusion h
    · rw [if_neg hci] at h
      exact Except.noConfusion h

/-- A resolved flag bundle with coverage upload enabled always has CI
enabled and a test runner selected. -/
theorem resolveFlags_codecov {env : Env} {f : Flags}
    (h : resolveFlags env = Except.ok f) (hcov : f.useCodecov = true) :
    f.setupCI = true ∧ f.testRunner ≠ TestRunner.none := by
  unfold resolveFlags at h
  by_cases hy : env.yes = true
  · rw [if_pos hy] at h
    injection h with h
    subst h
    simp at hcov
  · rw [if_neg hy] at h
    obtain ⟨lang, _, h⟩ := handleCancel_ok h
    obtain ⟨tr, _, h⟩ := handleCancel_ok h
    obtain ⟨lint, _, h⟩ := handleCancel_ok h
    obtain ⟨git, _, h⟩ := handleCancel_ok h
    obtain ⟨ci, _, h⟩ := handleCancel_ok h
    by_cases hci : ci = true
    · rw [if_pos hci] at h
      obtain ⟨cd, _, h⟩ := handleCancel_ok h
      by_cases htr : tr = TestRunner.none
      · rw [if_neg (not_not_intro htr)] at h
        obtain ⟨dep, _, h⟩ := handleCancel_ok h
        injection h with h
        subst h
        simp at hcov
      · rw [if_pos htr] at h
        obtain ⟨cov, _, h⟩ := handleCancel_ok h
        obtain ⟨dep, _, h⟩ := handleCancel_ok h
        injection h with h
        subst h
        exact ⟨rfl, htr⟩
    · rw [if_neg hci] at h
      injection h with h
      subst h
      simp at hcov

/-- Any pre-creation termination carries exit code 0, except the
target-directory collision, which exits 1 and can only happen when the
directory exists. -/
theorem preCreate_error {env : Env} {c : Nat}
    (h : preCreate env = Except.error c) :
    c = 0 ∨ (c = 1 ∧ env.dirExists = true) := by
  unfold preCreate at h
  rcases bind_eq_error h with h1 | ⟨nm, _, h⟩
  · left
    rcases hpn : env.providedName with _ | pn
    · rw [hpn] at h1
      rcases handleCancel_error h1 with rfl | ⟨a, _, ha⟩
      · rfl
      · exact Except.noConfusion ha
    · rw [hpn] at h1
      simp only [] at h1
      by_cases hy : env.yes = true
      · rw [if_pos hy] at h1
        exact Except.noConfusion h1
      · rw [if_neg hy] at h1
        rcases handleCancel_error h1 with rfl | ⟨b, _, hb⟩
        · rfl
        · by_cases hbv : b = true
          · rw [if_pos hbv] at hb
            exact Except.noConfusion hb
          · rw [if_neg hbv] at hb
            exact (Except.error.inj hb).symm
  rcases bind_eq_error h with h2 | ⟨u, _, h⟩
  · left
    by_cases hav : ¬env.available = true ∧ ¬env.yes = true
    · rw [if_pos hav] at h2
      rcases handleCancel_error h2 with rfl | ⟨b, _, hb⟩
      · rfl
      · by_cases hbv : b = true
        · rw [if_pos hbv] at hb
          exact Except.noConfusion hb
        · rw [if_neg hbv] at hb
          exact (Except.error.inj hb).symm
    · rw [if_neg hav] at h2
      exact Except.noConfusion h2
  by_cases hd : env.dirExists = true
  · rw [if_pos hd] at h
    right
    exact ⟨(Except.error.inj h).symm, hd⟩
  · rw [if_neg hd] at h
    left
    rcases bind_eq_error h with h3 | ⟨flags, _, h⟩
    · exact resolveFlags_error h3
    rcases bind_eq_error h with h4 | ⟨meta, _, h⟩
    · exact resolveMetadata_error h4
    rcases bind_eq_error h with h5 | ⟨pm, _, h⟩
    · by_cases hy : env.yes = true
      · rw [if_pos hy] at h5
        exact Except.noConfusion h5
      · rw [if_neg hy] at h5
        rcases handleCancel_error h5 with rfl | ⟨p, _, hp⟩
        · rfl
        · exact Except.noConfusion hp
    rcases bind_eq_error h with h6 | ⟨u2, _, h⟩
    · by_cases hy : env.yes = true
      · rw [if_neg (not_not_intro hy)] at h6
        exact Except.noConfusion h6
      · rw [if_pos hy] at h6
        rcases handleCancel_error h6 with rfl | ⟨b, _, hb⟩
        · rfl
        · by_cases hbv : b = true
          · rw [if_pos hbv] at hb
            exact Except.noConfusion hb
          · rw [if_neg hbv] at hb
            exact (Except.error.inj hb).symm
    by_cases hdr : env.dryRun = true
    · rw [if_pos hdr] at h
      exact (Except.error.inj h).symm
    · rw [if_neg hdr] at h
      exact Except.noConfusion h

/-- C6.  Every configuration the action can hand to the generators has
`useCodecov → setupCI ∧ testRunner ≠ none`: the `--yes` bundle sets
`useCodecov := false`, the Codecov question is only asked under CI with
a runner selected, and both the no-CI and no-runner paths force it to
`false`. -/
theorem preCreate_codecov_invariant (env : Env) (cfg : ProjectConfig)
    (h : preCreate env = Except.ok cfg) (hcov : cfg.useCodecov = true) :
    cfg.setupCI = true ∧ cfg.testRunner ≠ TestRunner.none := by
  unfold preCreate at h
  obtain ⟨nm, _, h⟩ := bind_eq_ok h
  obtain ⟨u, _, h⟩ := bind_eq_ok h
  by_cases hd : env.dirExists = true
  · rw [if_pos hd] at h
    exact Except.noConfusion h
  · rw [if_neg hd] at h
    obtain ⟨flags, hflags, h⟩ := bind_eq_ok h
    obtain ⟨meta, _, h⟩ := bind_eq_ok h
    obtain ⟨pm, _, h⟩ := bind_eq_ok h
    obtain ⟨u2, _, h⟩ := bind_eq_ok h
    by_cases hdr : env.dryRun = true
    · rw [if_pos hdr] at h
      exact Except.noConfusion h
    · rw [if_neg hdr] at h
      injection h with h
      subst h
      exact resolveFlags_codecov hflags hcov

/-- Witness for C6: an interactive run that answers the Codecov question
with "yes" resolves to a configuration with CI on and Vitest selected. -/
theorem preCreate_codecov_invariant_witness :
    ProjectConfig.setupCI
      { packageName := "sample-lib", language := Language.typescript,
        moduleType := ModuleType.dual, testRunner := TestRunner.vitest,
        useLinting := true, initGit := false, setupCI := true,
        setupCD := false, useCodecov := true, useDependabot := false,
        packageManager := Option.some PackageManager.npm,
        description := Option.none, author := Option.some "Jane Doe",
        authorEmail := Option.none, githubUsername := Option.none } = true
  ∧ ProjectConfig.testRunner
      { packageName := "sample-lib", language := Language.typescript,
        moduleType := ModuleType.dual, testRunner := TestRunner.vitest,
        useLinting := true, initGit := false, setupCI := true,
        setupCD := false, useCodecov := true, useDependabot := false,
        packageManager := Option.some PackageManager.npm,
        description := Option.none, author := Option.some "Jane Doe",
        authorEmail := Option.none, githubUsername := Option.none } ≠
      TestRunner.none :=
  preCreate_codecov_invariant
    { providedName := Option.some "sample-lib", yes := false,
      confirmCreate := Option.some true, available := true, dirExists := false,
      langAns := Option.some Language.typescript,
      testRunnerAns := Option.some TestRunner.vitest,
      useLintingAns := Option.some true, initGitAns := Option.some false,
      setupCIAns := Option.some true, setupCDAns := Option.some false,
      useCodecovAns := Option.some true, useDependabotAns := Option.some false,
      descriptionAns := Option.some "",
      storedConfig := Option.some { author := Option.some "Jane Doe" },
      pmAns := Option.some PackageManager.npm,
      proceedAns := Option.some true, installAns := Option.some true }
    _ rfl rfl

/-- C8 (amended).  Exit behavior of the action: (i) every pre-creation
termination (cancellation, decline, dry run, directory collision) ends
the run with nothing written; (ii) its exit code is 0 except for the
directory collision, which exits 1; (iii) when the target directory
exists the run aborts with code 1 before any write (shown here on the
`--yes` path, which reaches the check without prompts); (iv) cancelling
the dependency-install confirmation — the one prompt that *follows*
`createProject` — still exits 0, but with the project files already
written; (v) a non-zero exit only ever happens for the directory
collision, so every cancellation exits 0. -/
theorem runAction_exit_behavior :
    (∀ (env : Env) (c : Nat), preCreate env = Except.error c →
      runAction env = { exitCode := c, wroteFiles := false })
  ∧ (∀ (env : Env) (c : Nat), preCreate env = Except.error c →
      c = 0 ∨ (c = 1 ∧ env.dirExists = true))
  ∧ (∀ (env : Env) (n : String), env.providedName = Option.some n →
      env.yes = true → env.dirExists = true →
      runAction env = { exitCode := 1, wroteFiles := false })
  ∧ (∀ (env : Env) (cfg : ProjectConfig), preCreate env = Except.ok cfg →
      env.yes = false → env.skipInstall = false → env.installAns = Option.none →
      runAction env = { exitCode := 0, wroteFiles := true })
  ∧ (∀ env : Env, (runAction env).exitCode ≠ 0 → env.dirExists = true) := by
  have hrunerr : ∀ (env : Env) (c : Nat), preCreate env = Except.error c →
      runAction env = { exitCode := c, wroteFiles := false } := by
    intro env c h
    simp [runAction, h]
  refine ⟨hrunerr, fun env c h => preCreate_error h, ?_, ?_, ?_⟩
  · intro env n hpn hy hd
    have hpre : preCreate env = Except.error 1 := by
      unfold preCreate
      rw [hpn]
      simp only []
      rw [if_pos hy]
      simp only [Except.bind]
      rw [if_neg (by simp [hy]), if_pos hd]
    exact hrunerr env 1 hpre
  · intro env cfg h hy hsk hin
    simp [runAction, h, hy, hsk, hin]
  · intro env hne
    rcases hp : preCreate env with c | cfg
    · have := hrunerr env c hp
      rw [this] at hne
      simp only [] at hne
      rcases preCreate_error hp with rfl | ⟨rfl, hd⟩
      · exact absurd rfl hne
      · exact hd
    · exfalso
      apply hne
      unfold runAction
      rw [hp]
      by_cases hc : ¬env.skipInstall = true ∧ ¬env.yes = true
      · rw [if_pos hc]
        rcases env.installAns with _ | b <;> rfl
      · rw [if_neg hc]

/-- A `--yes` run against an already-existing target directory. -/
def envDirCollision : Env :=
  { providedName := Option.some "sample-lib", yes := true, dirExists := true }

/-- An interactive run whose every resolution prompt is answered, and
whose install-confirmation prompt is cancelled. -/
def envInstallCancel : Env :=
  { providedName := Option.some "sample-lib", yes := false,
    confirmCreate := Option.some true, available := true, dirExists := false,
    langAns := Option.some Language.typescript,
    testRunnerAns := Option.some TestRunner.vitest,
    useLintingAns := Option.some true, initGitAns := Option.some false,
    setupCIAns := Option.some false, descriptionAns := Option.some "",
    storedConfig := Option.some { author := Option.some "Jane Doe" },
    pmAns := Option.some PackageManager.npm,
    proceedAns := Option.some true, installAns := Option.none }

/-- The configuration `envInstallCancel` resolves to. -/
def cfgInstallCancel : ProjectConfig :=
  { packageName := "sample-lib", language := Language.typescript,
    moduleType := ModuleType.dual, testRunner := TestRunner.vitest,
    useLinting := true, initGit := false, setupCI := false,
    setupCD := false, useCodecov := false, useDependabot := false,
    packageManager := Option.some PackageManager.npm,
    description := Option.none, author := Option.some "Jane Doe",
    authorEmail := Option.none, githubUsername := Option.none }

/-- A run that cancels the very first prompt (the package-name text). -/
def envFirstCancel : Env :=
  { providedName := Option.none, nameAns := Option.none }

/-- Witness for C8 (amended): the theorem applied at three concrete
runs — a `--yes` run against an existing directory exits 1 with nothing
written; an interactive run that cancels the install confirmation exits
0 with the files written; a run that cancels the very first prompt exits
0 with nothing written. -/
theorem runAction_exit_behavior_witness :
    runAction envDirCollision = { exitCode := 1, wroteFiles := false }
  ∧ runAction envInstallCancel = { exitCode := 0, wroteFiles := true }
  ∧ runAction envFirstCancel = { exitCode := 0, wroteFiles := false } := by
  refine ⟨?_, ?_, ?_⟩
  · exact runAction_exit_behavior.2.2.1 envDirCollision "sample-lib" rfl rfl rfl
  · exact runAction_exit_behavior.2.2.2.1 envInstallCancel cfgInstallCancel
      rfl rfl rfl rfl
  · exact runAction_exit_behavior.1 envFirstCancel 0 rfl

/-- Counterexample for C8 as stated: cancelling the install-confirmation
prompt (a prompt of the flow) exits with code 0, but the project files
have already been written at that point — the run is not "aborted with
no files written". -/
theorem runAction_cancel_counterexample :
    envInstallCancel.installAns = Option.none
  ∧ runAction envInstallCancel = { exitCode := 0, wroteFiles := true } :=
  ⟨rfl, rfl⟩

end ForgeNpm
